import Mathlib

/-!
# Verification of the heat-stress pipeline (`Tmushore/heatstress`)

Shallow embedding of the two-stage pipeline:

* stage 1, `scripts/15_min_to_daily_heat_stress.py`: column-name
  normalization, timestamp-column discovery, per-value timestamp parsing with
  coercion of failures to missing, metric-column discovery, and per-date
  min/mean/max aggregation;
* stage 2, `scripts/statistical_heat_stress_characterization.py`: mean-column
  discovery, WBGT/THI categorization, range columns, outdoor-WBGT threshold
  indicator columns, the persisted categorized table, and the
  `num_thresholds_exceeded` column added afterwards for the exceedance plot.

Modelling conventions:

* Cell values are `PyVal`: a finite float is `num (q : ℚ)` (exact rationals
  stand in for IEEE doubles; every constant in the scripts and in the claims
  is exactly representable), IEEE NaN — which is also how pandas represents a
  missing value — is `nan`, and a non-numeric string (one that Python's
  `float` rejects) is `strv s`.  `float()` applied to a NaN *succeeds* and
  returns NaN; comparisons against NaN are `false`.
* Timestamp parsing (`pd.to_datetime(..., errors="coerce")`) is an external
  collaborator; the pipeline is parametrized by a per-value parse function
  returning `none` exactly on the values the library fails to parse.
  A parsed timestamp is a pair `(day, time-of-day)`; grouping uses the day.
* File I/O: stage 1 returns `Except`, an error meaning the run aborts with
  exit code 1 before writing output.  Stage 2's read/write try/except
  structure is modelled separately by `stage2Run` (the reads and writes
  themselves are external; the model records which are attempted and the
  resulting exit status — an uncaught Python exception exits with status 1).
* Summary-statistics contents and plot rendering are outside the embedded
  core (no claim is about them).
-/

set_option linter.unusedVariables false

namespace HeatStress

/-- A cell value as seen by the Python scripts: a finite float, NaN
(pandas missing), or a non-numeric string. -/
inductive PyVal where
  | num (q : ℚ)
  | nan
  | strv (s : String)
  deriving DecidableEq, Repr

/-- Python `float(v)`: `none` when the conversion raises (non-numeric
strings); NaN converts successfully to NaN (`some none`). -/
def pyFloat : PyVal → Option (Option ℚ)
  | .num q => some (some q)
  | .nan => some none
  | .strv _ => none

/-- Comparison `f < t` on a Python float, NaN comparing false. -/
def fLt (f : Option ℚ) (t : ℚ) : Bool :=
  match f with
  | none => false
  | some q => decide (q < t)

/-- Function `wbgt_category` from `statistical_heat_stress_characterization.py`
lines 73–87. -/
def wbgt_category (v : PyVal) : String :=
  match pyFloat v with
  | none => "Unknown"
  | some f =>
    if fLt f 25 then "Safe"
    else if fLt f 28 then "Caution"
    else if fLt f 31 then "Extreme Caution"
    else if fLt f 33 then "Danger"
    else "Extreme Danger"

/-- Function `thi_category` from `statistical_heat_stress_characterization.py`
lines 89–101. -/
def thi_category (v : PyVal) : String :=
  match pyFloat v with
  | none => "Unknown"
  | some f =>
    if fLt f 72 then "Comfort"
    else if fLt f 79 then "Alert"
    else if fLt f 89 then "Danger"
    else "Emergency"

/-! ## Column-name normalization

Stage 1 (line 38): `df.columns.str.strip().str.replace(" ", "_").str.lower()`.
Stage 2 (line 43): `df.columns.str.strip().str.lower()`.
Column names in scope are ASCII, where Python's `str.lower` agrees with
`Char.toLower`.  Replacing the single character `" "` by `"_"` is a
character map. -/

/-- Python `str.strip()`: drop leading and trailing whitespace. -/
def trimChars (l : List Char) : List Char :=
  ((l.dropWhile Char.isWhitespace).reverse.dropWhile Char.isWhitespace).reverse

/-- One character of `str.replace(" ", "_")`. -/
def normChar (c : Char) : Char := if c = ' ' then '_' else c

/-- Stage-1 normalization: strip, replace spaces by underscores, lowercase. -/
def normalize1 (s : String) : String :=
  ⟨((trimChars s.data).map normChar).map Char.toLower⟩

/-- Stage-2 normalization: strip, lowercase. -/
def normalize2 (s : String) : String :=
  ⟨(trimChars s.data).map Char.toLower⟩

/-- Substring test on character lists (Python `pat in s`). -/
def charsHas (pat : List Char) : List Char → Bool
  | [] => pat.isEmpty
  | c :: tl => pat.isPrefixOf (c :: tl) || charsHas pat tl

/-- Python `pat in s` on strings. -/
def strHas (pat s : String) : Bool := charsHas pat.data s.data

/-- Python `s.startswith(pre)`. -/
def strStarts (pre s : String) : Bool := pre.data.isPrefixOf s.data

theorem charsHas_iff_infix (pat : List Char) :
    ∀ l : List Char, charsHas pat l = true ↔ pat <:+: l := by
  intro l
  induction l with
  | nil =>
    simp [charsHas, List.isEmpty_iff]
  | cons c tl ih =>
    simp [charsHas, ih, List.infix_cons_iff]

theorem strHas_iff (pat s : String) :
    strHas pat s = true ↔ pat.data <:+: s.data := charsHas_iff_infix _ _

theorem ofNat_ne_space (m : Nat) (h1 : 97 ≤ m) (h2 : m ≤ 122) :
    Char.ofNat m ≠ ' ' := by
  intro he
  have hv : m.isValidChar := Or.inl (by omega)
  have ht : (Char.ofNat m).toNat = m := by
    rw [Char.ofNat, dif_pos hv]
    rfl
  rw [he] at ht
  have : (' ').toNat = 32 := rfl
  omega

theorem toLower_ne_space {c : Char} (h : c ≠ ' ') : Char.toLower c ≠ ' ' := by
  unfold Char.toLower
  simp only []
  split
  · next hc => exact ofNat_ne_space _ (by omega) (by omega)
  · exact h

theorem normChar_ne_space (c : Char) : normChar c ≠ ' ' := by
  unfold normChar
  split
  · decide
  · assumption

/-- Stage-1 normalization never produces a name containing a space. -/
theorem normalize1_no_space (s : String) : ' ' ∉ (normalize1 s).data := by
  intro hm
  simp only [normalize1, List.mem_map] at hm
  obtain ⟨c, hc, he⟩ := hm
  obtain ⟨b, hb, rfl⟩ := hc
  exact toLower_ne_space (normChar_ne_space b) he

/-! ## Stage 1: `15_min_to_daily_heat_stress.py`

The input table is the list of raw column names plus one positional list of
cells per row (as produced by `pd.read_csv`).  A parsed timestamp is
`(day, time-of-day)`; only the day (`df[dt_col].dt.date`, line 73) is used
for grouping. -/

/-- A parsed timestamp: calendar day (as an integer code) and time of day. -/
abbrev DT := ℤ × ℚ

/-- Cell of a positional row under the (normalized) column-name list. -/
def getCell1 (ncols : List String) (row : List PyVal) (c : String) : PyVal :=
  match ncols.findIdx? (fun n => n = c) with
  | some i => row.getD i PyVal.nan
  | none => PyVal.nan

/-- The first-pass timestamp-column test of line 44: name contains
`"datetime"`, or contains both `"date"` and `"time"`, or is exactly
`"timestamp"` or `"time"`. -/
def isDtName (c : String) : Bool :=
  strHas "datetime" c || (strHas "date" c && strHas "time" c) ||
    c = "timestamp" || c = "time"

/-- Timestamp-column discovery, lines 41–52: first pass over `isDtName`,
then a fallback pass over names containing `"date"`. -/
def findDtCol (cols : List String) : Option String :=
  match cols.find? isDtName with
  | some c => some c
  | none => cols.find? (fun c => strHas "date" c)

/-- Candidate aliases for the outdoor-WBGT metric (line 77). -/
def wbgtoutAliases : List String :=
  ["wbgtout", "wbgt_out", "wbgt-out", "wbgt outdoor", "wbgt_outdoor"]

/-- Candidate aliases for the indoor-WBGT metric (line 78). -/
def wbgtinAliases : List String :=
  ["wbgtin", "wbgt_in", "wbgt-in", "wbgt indoor", "wbgt_indoor"]

/-- Candidate aliases for the THI metric (line 79). -/
def thiAliases : List String :=
  ["thi", "temperature_humidity_index", "temp_humidity_index"]

/-- First alias present among the columns wins per key (lines 83–87). -/
def findAlias (ncols : List String) (names : List String) : Option String :=
  names.find? (fun n => decide (n ∈ ncols))

/-- Metric discovery, lines 82–93: the three keyed candidate lists in dict
order, then literal `temperature` and `humidity` columns
(`found.setdefault` always inserts, the dict keys being distinct). -/
def discoverMetrics (ncols : List String) : List (String × String) :=
  (match findAlias ncols wbgtoutAliases with
    | some n => [("wbgtout", n)] | none => []) ++
  (match findAlias ncols wbgtinAliases with
    | some n => [("wbgtin", n)] | none => []) ++
  (match findAlias ncols thiAliases with
    | some n => [("thi", n)] | none => []) ++
  (if "temperature" ∈ ncols then [("temperature", "temperature")] else []) ++
  (if "humidity" ∈ ncols then [("humidity", "humidity")] else [])

/-- Rows whose timestamp parsed, paired with their parsed timestamp
(`errors="coerce"` then `dropna`, lines 61–70). -/
def keptPairs (parse : PyVal → Option DT) (ncols : List String) (dtc : String)
    (rows : List (List PyVal)) : List (DT × List PyVal) :=
  rows.filterMap (fun r => (parse (getCell1 ncols r dtc)).map (fun dt => (dt, r)))

/-- The rows aggregated for calendar day `d` (the `groupby("date")` group). -/
def dayGroup (parse : PyVal → Option DT) (ncols : List String) (dtc : String)
    (rows : List (List PyVal)) (d : ℤ) : List (List PyVal) :=
  ((keptPairs parse ncols dtc rows).filter (fun p => p.1.1 = d)).map (fun p => p.2)

/-- Non-missing numeric values of column `col` over a group (pandas
`min`/`mean`/`max` aggregation skips NaN). -/
def colVals (ncols : List String) (col : String) (group : List (List PyVal)) :
    List ℚ :=
  group.filterMap (fun r =>
    match getCell1 ncols r col with
    | .num q => some q
    | _ => none)

/-- Per-day, per-metric statistics triple. -/
structure AggStats where
  min : Option ℚ
  mean : Option ℚ
  max : Option ℚ
  deriving DecidableEq, Repr

/-- Statistics `min`/`mean`/`max` over a day's non-missing values; NaN (`none`)
when the day has no observation of the metric. -/
def aggStats (l : List ℚ) : AggStats :=
  match l with
  | [] => ⟨none, none, none⟩
  | x :: xs =>
    ⟨some (xs.foldl min x),
     some ((x :: xs).sum / ((x :: xs).length : ℚ)),
     some (xs.foldl max x)⟩

/-- Insert into a sorted list of day codes. -/
def insertSorted (x : ℤ) : List ℤ → List ℤ
  | [] => [x]
  | y :: ys => if x ≤ y then x :: y :: ys else y :: insertSorted x ys

/-- Distinct day codes in ascending order (`groupby` sorts its keys;
the no-metric branch does `drop_duplicates().sort_values`). -/
def sortDedup (l : List ℤ) : List ℤ := l.dedup.foldr insertSorted []

/-- One row of the `DailyAggregate` table: the calendar day and, per
discovered metric column, the statistics triple. -/
structure DailyRow where
  date : ℤ
  stats : List (String × AggStats)
  deriving DecidableEq, Repr

/-- Result of a successful stage-1 run: the warning count of dropped rows,
the discovered metrics (key, column) in discovery order, and the daily
table. -/
structure Stage1Result where
  n_bad : Nat
  found : List (String × String)
  daily : List DailyRow
  deriving DecidableEq, Repr

/-- Fatal stage-1 error: no timestamp column; the payload is the printed
column list (lines 54–57, `sys.exit(1)` before any output is written). -/
inductive Stage1Err where
  | noTimestampCol (cols : List String)
  deriving DecidableEq, Repr

/-- Stage 1 end to end: normalize column names, discover the timestamp
column (fatal if absent), coerce unparseable timestamps to missing and drop
them (counting them for the warning), discover metrics, and aggregate
min/mean/max per calendar day.  When no metric is discovered the daily rows
carry an empty statistics list (the dates-only output). -/
def stage1 (parse : PyVal → Option DT) (rawCols : List String)
    (rows : List (List PyVal)) : Except Stage1Err Stage1Result :=
  match findDtCol (rawCols.map normalize1) with
  | none => .error (.noTimestampCol (rawCols.map normalize1))
  | some dtc =>
    .ok
      { n_bad := rows.countP
          (fun r => (parse (getCell1 (rawCols.map normalize1) r dtc)).isNone)
        found := discoverMetrics (rawCols.map normalize1)
        daily := (sortDedup ((keptPairs parse (rawCols.map normalize1) dtc
            rows).map (fun p => p.1.1))).map (fun d =>
          { date := d
            stats := (discoverMetrics (rawCols.map normalize1)).map (fun kc =>
              (kc.2, aggStats (colVals (rawCols.map normalize1) kc.2
                (dayGroup parse (rawCols.map normalize1) dtc rows d)))) }) }

/-! ## Stage 2: `statistical_heat_stress_characterization.py`

A stage-2 dataframe is a column-name list plus one name-indexed cell
function per row (reading a name not in `cols` is out of scope and yields
NaN).  `setCol` is pandas column assignment: overwrite in place if the name
exists, else append it on the right. -/

/-- A stage-2 dataframe. -/
structure DF where
  cols : List String
  rows : List (String → PyVal)

/-- Default row used with `List.getD`. -/
def dfltRow : String → PyVal := fun _ => PyVal.nan

/-- Assignment `df[name] = f(row)`: per-row assignment of a derived column.  The
column list is extended only when the name is new (pandas overwrites in
place otherwise); every row function is updated either way. -/
def DF.setCol (df : DF) (name : String) (f : (String → PyVal) → PyVal) : DF :=
  { cols := if name ∈ df.cols then df.cols else df.cols ++ [name]
    rows := df.rows.map (fun r => fun c => if c = name then f r else r c) }

/-- Like `setCol` but with the derived value read from the matching row of a
second (equal-length) dataframe — `add_range` (lines 113–117) reads the
`_max`/`_min` cells from `df`, not from `cat_df`. -/
def DF.setColFrom (df src : DF) (name : String)
    (f : (String → PyVal) → PyVal) : DF :=
  { cols := if name ∈ df.cols then df.cols else df.cols ++ [name]
    rows := (df.rows.zip src.rows).map (fun pr =>
      fun c => if c = name then f pr.2 else pr.1 c) }

/-- Line 43: rename every column to its normalized form; a cell is then
read through the first raw name with that normalized form. -/
def DF.normed (df : DF) : DF :=
  { cols := df.cols.map normalize2
    rows := df.rows.map (fun r => fun c =>
      match df.cols.find? (fun rc => normalize2 rc = c) with
      | some rc => r rc
      | none => PyVal.nan) }

/-- Lines 46–51: the first column containing `"date"`, if any, has
`pd.to_datetime(..., errors="coerce")` applied to its values (modelled by
the external per-value function `parseD`). -/
def prepped (parseD : PyVal → PyVal) (df0 : DF) : DF :=
  match df0.normed.cols.find? (fun c => strHas "date" c) with
  | some dc => df0.normed.setCol dc (fun r => parseD (r dc))
  | none => df0.normed

/-- Mean-column discovery for one metric key (lines 56–66): first column
starting with the key and containing `"mean"`, else the bare key if it is a
column. -/
def meanColFor (key : String) (cols : List String) : Option String :=
  match cols.find? (fun c => strStarts key c && strHas "mean" c) with
  | some c => some c
  | none => if key ∈ cols then some key else none

/-- The outdoor-WBGT threshold list (line 125). -/
def thresholds : List ℕ := [25, 27, 28, 30, 32]

/-- Comparison `cat_df[wbgtout_mean] > t` on one cell; a NaN (or non-float) mean
compares false against every threshold. -/
def pyGtNat (v : PyVal) (t : ℕ) : Bool :=
  match v with
  | .num q => decide ((t : ℚ) < q)
  | _ => false

/-- One threshold-indicator cell:
`(cat_df[wbgtout_mean] > t).astype(int)` (line 129). -/
def aboveCell (v : PyVal) (t : ℕ) : PyVal :=
  .num (if pyGtNat v t then 1 else 0)

/-- Lines 126–129: the five `wbgtout_above_{t}` indicator columns, added in
threshold order when an outdoor-WBGT mean column was discovered. -/
def addThresholdCols (d : DF) (mc : String) : DF :=
  thresholds.foldl (fun acc t =>
    acc.setCol ("wbgtout_above_" ++ toString t) (fun r => aboveCell (r mc) t)) d

/-- NaN-propagating subtraction for the `_range` columns. -/
def pySub (a b : PyVal) : PyVal :=
  match a, b with
  | .num x, .num y => .num (x - y)
  | _, _ => .nan

/-- Numeric value of a cell for `sum(axis=1)`, which skips NaN. -/
def qCell : PyVal → ℚ
  | .num q => q
  | _ => 0

/-- One conditional category column (lines 103–108): added only when the
metric's mean column was discovered. -/
def addCat (o : Option String) (name : String) (catf : PyVal → String)
    (d : DF) : DF :=
  match o with
  | some mc => d.setCol name (fun r => .strv (catf (r mc)))
  | none => d

/-- One conditional `_range` column (lines 113–120): added only when both
the `_max` and `_min` columns exist in the input table `src`, and computed
from `src`'s cells. -/
def addRange (src : DF) (p : String) (d : DF) : DF :=
  if (p ++ "_max") ∈ src.cols ∧ (p ++ "_min") ∈ src.cols then
    d.setColFrom src (p ++ "_range")
      (fun r => pySub (r (p ++ "_max")) (r (p ++ "_min")))
  else d

/-- Lines 103–120: the three conditional category columns (in the order
outdoor WBGT, indoor WBGT, THI, with the mean columns discovered on the
input table once, up front) followed by the three conditional range
columns in the same metric order. -/
def catsRanges (df : DF) : DF :=
  addRange df "thi" (addRange df "wbgtin" (addRange df "wbgtout"
    (addCat (meanColFor "thi" df.cols) "thi_category" thi_category
      (addCat (meanColFor "wbgtin" df.cols) "wbgtin_category" wbgt_category
        (addCat (meanColFor "wbgtout" df.cols) "wbgtout_category"
          wbgt_category df)))))

/-- The categorized table exactly as persisted by `cat_df.to_csv`
(line 133): categories, ranges, and — when an outdoor-WBGT mean column was
discovered — the five threshold indicators.  `num_thresholds_exceeded`
does not exist yet at this point. -/
def persistedDF (parseD : PyVal → PyVal) (df0 : DF) : DF :=
  match meanColFor "wbgtout" (prepped parseD df0).cols with
  | some mc => addThresholdCols (catsRanges (prepped parseD df0)) mc
  | none => catsRanges (prepped parseD df0)

/-- Line 211: the columns summed for the exceedance plot — every column of
the persisted table whose name starts with `"wbgtout_above_"`. -/
def exceed_cols (parseD : PyVal → PyVal) (df0 : DF) : List String :=
  (persistedDF parseD df0).cols.filter (fun c => strStarts "wbgtout_above_" c)

/-- Lines 211–213: the final in-memory table; when at least one indicator
column exists it gains `num_thresholds_exceeded`, the row-wise
(NaN-skipping) sum of the indicator columns — added only after the
categorized file was written. -/
def finalDF (parseD : PyVal → PyVal) (df0 : DF) : DF :=
  if (exceed_cols parseD df0).isEmpty then persistedDF parseD df0
  else (persistedDF parseD df0).setCol "num_thresholds_exceeded"
    (fun r => .num (((exceed_cols parseD df0).map (fun c => qCell (r c))).sum))

/-- The stage-2 core, lines 43–136 and 211–213: the categorized table as
persisted, together with the final in-memory table. -/
def characterize (parseD : PyVal → PyVal) (df0 : DF) : DF × DF :=
  (persistedDF parseD df0, finalDF parseD df0)

/-- Render a stage-1 result as the CSV table stage 2 reads: a `date` column
followed by `<col>_min`, `<col>_mean`, `<col>_max` triples in discovery
order (lines 98–111 flatten the aggregation MultiIndex that way). -/
def statLookup : List (String × AggStats) → String → PyVal
  | [], _ => PyVal.nan
  | (col, st) :: rest, c =>
    if c = col ++ "_min" then (st.min.map PyVal.num).getD PyVal.nan
    else if c = col ++ "_mean" then (st.mean.map PyVal.num).getD PyVal.nan
    else if c = col ++ "_max" then (st.max.map PyVal.num).getD PyVal.nan
    else statLookup rest c

/-- The `DailyAggregate` file handed from stage 1 to stage 2. -/
def renderDaily (res : Stage1Result) : DF :=
  { cols := "date" :: res.found.flatMap (fun kc =>
      [kc.2 ++ "_min", kc.2 ++ "_mean", kc.2 ++ "_max"])
    rows := res.daily.map (fun dr => fun c =>
      if c = "date" then PyVal.strv (toString dr.date)
      else statLookup dr.stats c) }

/-! ## Stage-2 control flow

Lines 37–41 wrap the input read in try/except with `sys.exit(1)`; lines
132–136 wrap the categorized write in try/except that only prints to
stderr; the summary write at line 166 is *not* wrapped, so a failure there
is an uncaught exception and CPython terminates with a traceback and exit
status 1, never reaching the plotting section.  The model takes one success
flag per external operation and returns the exit status together with the
trace of completed steps. -/

/-- Observable stage-2 events. -/
inductive Ev where
  | readFail
  | catWriteOk
  | catWriteFail
  | sumWriteOk
  | sumWriteFail
  | plotsDone
  deriving DecidableEq, Repr

/-- Stage-2 driver control flow as a function of which external operations
succeed. -/
def stage2Run (readOk catOk sumOk : Bool) : Nat × List Ev :=
  if !readOk then (1, [.readFail])
  else
    let e1 := if catOk then Ev.catWriteOk else Ev.catWriteFail
    if !sumOk then (1, [e1, .sumWriteFail])
    else (0, [e1, .sumWriteOk, .plotsDone])

/-! ## The end-to-end example input

Timestamps are parsed by the external datetime library; on the three
example values it yields the day codes `20200101`/`20200102` with the
time-of-day as a fraction of a day, and fails on anything else. -/

/-- The datetime parse on the example inputs. -/
def exampleParse : PyVal → Option DT
  | .strv "2020-01-01 00:15" => some (20200101, 15 / 1440)
  | .strv "2020-01-01 06:15" => some (20200101, 375 / 1440)
  | .strv "2020-01-02 00:15" => some (20200102, 15 / 1440)
  | _ => none

/-- The three example input rows `(timestamp, wbgtout)`. -/
def exampleRows : List (List PyVal) :=
  [[.strv "2020-01-01 00:15", .num 24],
   [.strv "2020-01-01 06:15", .num (61 / 2)],
   [.strv "2020-01-02 00:15", .num 34]]

/-- The expected stage-1 result on the example: no dropped rows, the
`wbgtout` column discovered, and per-day (min, mean, max) =
(24, 27.25, 30.5) and (34, 34, 34). -/
def exampleExpected : Stage1Result :=
  { n_bad := 0
    found := [("wbgtout", "wbgtout")]
    daily :=
      [{ date := 20200101
         stats := [("wbgtout", ⟨some 24, some (109 / 4), some (61 / 2)⟩)] },
       { date := 20200102
         stats := [("wbgtout", ⟨some 34, some 34, some 34⟩)] }] }

/-- The final stage-2 in-memory table on the example (date values pass
through the stage-2 datetime parse unchanged here). -/
def exampleFinal : DF :=
  (characterize id (renderDaily exampleExpected)).2

/-- The categorized table as persisted on the example. -/
def examplePersisted : DF :=
  (characterize id (renderDaily exampleExpected)).1

/-! ## Helper lemmas -/

theorem length_filterMap_eq_countP (f : α → Option β) (l : List α) :
    (l.filterMap f).length = l.countP (fun a => (f a).isSome) := by
  induction l with
  | nil => rfl
  | cons x xs ih =>
    cases hfx : f x <;>
      simp [List.filterMap_cons, hfx, List.countP_cons, ih]

theorem foldl_min_le : ∀ (xs : List ℚ) (x y : ℚ), y ∈ x :: xs → xs.foldl min x ≤ y := by
  intro xs
  induction xs with
  | nil =>
    intro x y h
    simp at h
    simp [h]
  | cons z zs ih =>
    intro x y h
    rw [List.foldl_cons]
    rcases List.mem_cons.mp h with h1 | h2
    · rw [h1]
      exact le_trans (ih (min x z) (min x z) (List.mem_cons_self _ _)) (min_le_left _ _)
    rcases List.mem_cons.mp h2 with h1 | h3
    · rw [h1]
      exact le_trans (ih (min x z) (min x z) (List.mem_cons_self _ _)) (min_le_right _ _)
    · exact ih (min x z) y (List.mem_cons_of_mem _ h3)

theorem le_foldl_max : ∀ (xs : List ℚ) (x y : ℚ), y ∈ x :: xs → y ≤ xs.foldl max x := by
  intro xs
  induction xs with
  | nil =>
    intro x y h
    simp at h
    simp [h]
  | cons z zs ih =>
    intro x y h
    rw [List.foldl_cons]
    rcases List.mem_cons.mp h with h1 | h2
    · rw [h1]
      exact le_trans (le_max_left _ _) (ih (max x z) (max x z) (List.mem_cons_self _ _))
    rcases List.mem_cons.mp h2 with h1 | h3
    · rw [h1]
      exact le_trans (le_max_right _ _) (ih (max x z) (max x z) (List.mem_cons_self _ _))
    · exact ih (max x z) y (List.mem_cons_of_mem _ h3)

theorem aggStats_min_le_mean_le_max {l : List ℚ} {a m b : ℚ}
    (h : aggStats l = ⟨some a, some m, some b⟩) : a ≤ m ∧ m ≤ b := by
  cases l with
  | nil => simp [aggStats] at h
  | cons x xs =>
    simp only [aggStats, AggStats.mk.injEq, Option.some.injEq] at h
    obtain ⟨ha, hm, hb⟩ := h
    have hlen : (0 : ℚ) < (((x :: xs).length : ℕ) : ℚ) := by
      exact_mod_cast Nat.succ_pos xs.length
    constructor
    · rw [← ha, ← hm, le_div_iff₀ hlen]
      have hs := List.card_nsmul_le_sum (x :: xs) (xs.foldl min x)
        (fun y hy => foldl_min_le xs x y hy)
      rw [nsmul_eq_mul] at hs
      linarith
    · rw [← hb, ← hm, div_le_iff₀ hlen]
      have hs := List.sum_le_card_nsmul (x :: xs) (xs.foldl max x)
        (fun y hy => le_foldl_max xs x y hy)
      rw [nsmul_eq_mul] at hs
      linarith

theorem no_space_of_mem_normalized {rawCols : List String} {s : String}
    (h : s ∈ rawCols.map normalize1) : ' ' ∉ s.data := by
  obtain ⟨r, hr, rfl⟩ := List.mem_map.mp h
  exact normalize1_no_space r

theorem findAlias_mem {ncols names : List String} {n : String}
    (h : findAlias ncols names = some n) : n ∈ names ∧ n ∈ ncols := by
  unfold findAlias at h
  have hp := List.find?_some h
  simp only [decide_eq_true_eq] at hp
  exact ⟨List.mem_of_find?_eq_some h, hp⟩

theorem discover_cases {ncols : List String} {k c : String}
    (h : (k, c) ∈ discoverMetrics ncols) :
    (k = "wbgtout" ∧ findAlias ncols wbgtoutAliases = some c)
    ∨ (k = "wbgtin" ∧ findAlias ncols wbgtinAliases = some c)
    ∨ (k = "thi" ∧ findAlias ncols thiAliases = some c)
    ∨ (k = "temperature" ∧ c = "temperature")
    ∨ (k = "humidity" ∧ c = "humidity") := by
  unfold discoverMetrics at h
  simp only [List.append_assoc, List.mem_append] at h
  rcases h with h | h | h | h | h
  · rcases hf : findAlias ncols wbgtoutAliases with _ | n <;> rw [hf] at h <;> simp at h
    exact Or.inl ⟨h.1, congrArg some h.2.symm⟩
  · rcases hf : findAlias ncols wbgtinAliases with _ | n <;> rw [hf] at h <;> simp at h
    exact Or.inr (Or.inl ⟨h.1, congrArg some h.2.symm⟩)
  · rcases hf : findAlias ncols thiAliases with _ | n <;> rw [hf] at h <;> simp at h
    exact Or.inr (Or.inr (Or.inl ⟨h.1, congrArg some h.2.symm⟩))
  · by_cases ht : "temperature" ∈ ncols <;> simp [ht] at h
    exact Or.inr (Or.inr (Or.inr (Or.inl ⟨h.1, h.2⟩)))
  · by_cases ht : "humidity" ∈ ncols <;> simp [ht] at h
    exact Or.inr (Or.inr (Or.inr (Or.inr ⟨h.1, h.2⟩)))

/-! ### Dataframe lemmas for the stage-2 pipeline -/

/-- The six category/range column names stage 2 may add before the
threshold indicators. -/
def catRangeNames : List String :=
  ["wbgtout_category", "wbgtin_category", "thi_category",
   "wbgtout_range", "wbgtin_range", "thi_range"]

/-- The five threshold-indicator column names, in threshold order. -/
def fiveNames : List String :=
  ["wbgtout_above_25", "wbgtout_above_27", "wbgtout_above_28",
   "wbgtout_above_30", "wbgtout_above_32"]

theorem map_getD_of_lt {α β : Type} (g : α → β) (l : List α) (d : α) (e : β)
    (i : ℕ) (hi : i < l.length) : (l.map g).getD i e = g (l.getD i d) := by
  rw [List.getD_eq_getElem?_getD, List.getD_eq_getElem?_getD,
    List.getElem?_map, List.getElem?_eq_getElem hi]
  rfl

theorem zip_getD_of_lt {α β : Type} (l1 : List α) (l2 : List β) (d1 : α)
    (d2 : β) (i : ℕ) (h1 : i < l1.length) (h2 : i < l2.length) :
    (l1.zip l2).getD i (d1, d2) = (l1.getD i d1, l2.getD i d2) := by
  rw [List.getD_eq_getElem?_getD, List.getD_eq_getElem?_getD,
    List.getD_eq_getElem?_getD, List.zip_eq_zipWith, List.getElem?_zipWith,
    List.getElem?_eq_getElem h1, List.getElem?_eq_getElem h2]
  rfl

theorem setCol_rows_length (df : DF) (n : String)
    (f : (String → PyVal) → PyVal) :
    (df.setCol n f).rows.length = df.rows.length := by
  simp [DF.setCol]

theorem setColFrom_rows_length (df src : DF) (n : String)
    (f : (String → PyVal) → PyVal) (h : df.rows.length = src.rows.length) :
    (df.setColFrom src n f).rows.length = df.rows.length := by
  simp [DF.setColFrom, h]

theorem setCol_row_apply (df : DF) (n : String) (f : (String → PyVal) → PyVal)
    (i : ℕ) (c : String) (hi : i < df.rows.length) :
    ((df.setCol n f).rows.getD i dfltRow) c
      = if c = n then f (df.rows.getD i dfltRow)
        else (df.rows.getD i dfltRow) c := by
  unfold DF.setCol
  rw [map_getD_of_lt _ _ dfltRow _ _ hi]

theorem setColFrom_row_apply (df src : DF) (n : String)
    (f : (String → PyVal) → PyVal) (i : ℕ) (c : String)
    (hi : i < df.rows.length) (hl : df.rows.length = src.rows.length) :
    ((df.setColFrom src n f).rows.getD i dfltRow) c
      = if c = n then f (src.rows.getD i dfltRow)
        else (df.rows.getD i dfltRow) c := by
  unfold DF.setColFrom
  rw [map_getD_of_lt _ _ (dfltRow, dfltRow) _ _
      (by rw [List.length_zip]; omega),
    zip_getD_of_lt _ _ _ _ _ hi (by omega)]

theorem setCol_cols_of_not_mem (df : DF) (n : String)
    (f : (String → PyVal) → PyVal) (h : n ∉ df.cols) :
    (df.setCol n f).cols = df.cols ++ [n] := by
  unfold DF.setCol
  rw [if_neg h]

theorem addCat_cols (o : Option String) (name : String)
    (catf : PyVal → String) (d : DF) :
    ∃ ex, (addCat o name catf d).cols = d.cols ++ ex
      ∧ ∀ x ∈ ex, x = name := by
  cases o with
  | none => exact ⟨[], by simp [addCat], by simp⟩
  | some mc =>
    by_cases h : name ∈ d.cols
    · exact ⟨[], by simp [addCat, DF.setCol, h], by simp⟩
    · exact ⟨[name], by simp [addCat, DF.setCol, h], by simp⟩

theorem addCat_rows_length (o : Option String) (name : String)
    (catf : PyVal → String) (d : DF) :
    (addCat o name catf d).rows.length = d.rows.length := by
  cases o <;> simp [addCat, DF.setCol]

theorem addCat_row_ne (o : Option String) (name : String)
    (catf : PyVal → String) (d : DF) (i : ℕ) (c : String)
    (hi : i < d.rows.length) (hc : c ≠ name) :
    ((addCat o name catf d).rows.getD i dfltRow) c
      = (d.rows.getD i dfltRow) c := by
  cases o with
  | none => rfl
  | some mc =>
    rw [addCat, setCol_row_apply _ _ _ _ _ hi, if_neg hc]

theorem addRange_cols (src : DF) (p : String) (d : DF) :
    ∃ ex, (addRange src p d).cols = d.cols ++ ex
      ∧ ∀ x ∈ ex, x = p ++ "_range" := by
  unfold addRange
  by_cases h : (p ++ "_max") ∈ src.cols ∧ (p ++ "_min") ∈ src.cols
  · rw [if_pos h]
    by_cases h2 : (p ++ "_range") ∈ d.cols
    · exact ⟨[], by simp [DF.setColFrom, h2], by simp⟩
    · exact ⟨[p ++ "_range"], by simp [DF.setColFrom, h2], by simp⟩
  · rw [if_neg h]
    exact ⟨[], by simp, by simp⟩

theorem addRange_rows_length (src : DF) (p : String) (d : DF)
    (hl : d.rows.length = src.rows.length) :
    (addRange src p d).rows.length = d.rows.length := by
  unfold addRange
  by_cases h : (p ++ "_max") ∈ src.cols ∧ (p ++ "_min") ∈ src.cols
  · rw [if_pos h, setColFrom_rows_length _ _ _ _ hl]
  · rw [if_neg h]

theorem addRange_row_ne (src : DF) (p : String) (d : DF) (i : ℕ) (c : String)
    (hi : i < d.rows.length) (hl : d.rows.length = src.rows.length)
    (hc : c ≠ p ++ "_range") :
    ((addRange src p d).rows.getD i dfltRow) c
      = (d.rows.getD i dfltRow) c := by
  unfold addRange
  by_cases h : (p ++ "_max") ∈ src.cols ∧ (p ++ "_min") ∈ src.cols
  · rw [if_pos h, setColFrom_row_apply _ _ _ _ _ _ hi hl, if_neg hc]
  · rw [if_neg h]

/-- Relation stating `d` is `base` extended on the right by derived columns drawn from
`names`, with the original rows unchanged outside `names`. -/
def Extends (base d : DF) (names : List String) : Prop :=
  (∃ ex, d.cols = base.cols ++ ex ∧ ∀ x ∈ ex, x ∈ names)
  ∧ d.rows.length = base.rows.length
  ∧ ∀ i c, i < base.rows.length → c ∉ names →
      (d.rows.getD i dfltRow) c = (base.rows.getD i dfltRow) c

theorem Extends.refl (base : DF) (names : List String) :
    Extends base base names :=
  ⟨⟨[], by simp, by simp⟩, rfl, fun i c hi hc => rfl⟩

theorem Extends.addCat {base d : DF} {names : List String}
    (h : Extends base d names) (o : Option String) (catf : PyVal → String)
    {name : String} (hn : name ∈ names) :
    Extends base (addCat o name catf d) names := by
  obtain ⟨⟨ex, hex, hmem⟩, hlen, hrow⟩ := h
  obtain ⟨e2, he2, hm2⟩ := addCat_cols o name catf d
  refine ⟨⟨ex ++ e2, ?_, ?_⟩, ?_, ?_⟩
  · rw [he2, hex, List.append_assoc]
  · intro x hx
    rcases List.mem_append.mp hx with hx | hx
    · exact hmem x hx
    · rw [hm2 x hx]; exact hn
  · rw [addCat_rows_length, hlen]
  · intro i c hi hc
    rw [addCat_row_ne _ _ _ _ _ _ (by omega) (fun he => hc (by rw [he]; exact hn))]
    exact hrow i c hi hc

theorem Extends.addRange {base d : DF} {names : List String}
    (h : Extends base d names) (p : String)
    (hn : (p ++ "_range") ∈ names) :
    Extends base (addRange base p d) names := by
  obtain ⟨⟨ex, hex, hmem⟩, hlen, hrow⟩ := h
  obtain ⟨e2, he2, hm2⟩ := addRange_cols base p d
  refine ⟨⟨ex ++ e2, ?_, ?_⟩, ?_, ?_⟩
  · rw [he2, hex, List.append_assoc]
  · intro x hx
    rcases List.mem_append.mp hx with hx | hx
    · exact hmem x hx
    · rw [hm2 x hx]; exact hn
  · rw [addRange_rows_length _ _ _ hlen, hlen]
  · intro i c hi hc
    rw [addRange_row_ne _ _ _ _ _ (by omega) hlen (fun he => hc (by rw [he]; exact hn))]
    exact hrow i c hi hc

theorem catsRanges_extends (df : DF) :
    Extends df (catsRanges df) catRangeNames := by
  unfold catsRanges
  refine Extends.addRange ?_ "thi" (by decide)
  refine Extends.addRange ?_ "wbgtin" (by decide)
  refine Extends.addRange ?_ "wbgtout" (by decide)
  refine Extends.addCat ?_ _ _ (by decide)
  refine Extends.addCat ?_ _ _ (by decide)
  refine Extends.addCat (Extends.refl df catRangeNames) _ _ (by decide)

theorem meanColFor_mem {key : String} {cols : List String} {mc : String}
    (h : meanColFor key cols = some mc) : mc ∈ cols := by
  unfold meanColFor at h
  cases hf : cols.find? (fun c => strStarts key c && strHas "mean" c) with
  | some c =>
    rw [hf] at h
    cases h
    exact List.mem_of_find?_eq_some hf
  | none =>
    rw [hf] at h
    by_cases hk : key ∈ cols
    · rw [if_pos hk] at h
      cases h
      exact hk
    · rw [if_neg hk] at h
      cases h

theorem addThresholdCols_spec (d : DF) (mc : String)
    (h5 : ∀ n ∈ fiveNames, n ∉ d.cols) (hmc : mc ∉ fiveNames) :
    (addThresholdCols d mc).cols = d.cols ++ fiveNames
    ∧ (addThresholdCols d mc).rows.length = d.rows.length
    ∧ ∀ i, i < d.rows.length →
        (∀ t ∈ thresholds,
          ((addThresholdCols d mc).rows.getD i dfltRow)
            ("wbgtout_above_" ++ toString t)
            = aboveCell ((d.rows.getD i dfltRow) mc) t)
        ∧ ∀ c, c ∉ fiveNames →
          ((addThresholdCols d mc).rows.getD i dfltRow) c
            = (d.rows.getD i dfltRow) c := by
  have hdef : addThresholdCols d mc
      = ((((d.setCol "wbgtout_above_25" (fun r => aboveCell (r mc) 25)).setCol
          "wbgtout_above_27" (fun r => aboveCell (r mc) 27)).setCol
          "wbgtout_above_28" (fun r => aboveCell (r mc) 28)).setCol
          "wbgtout_above_30" (fun r => aboveCell (r mc) 30)).setCol
          "wbgtout_above_32" (fun r => aboveCell (r mc) 32) := rfl
  have hne : ∀ n ∈ fiveNames, mc ≠ n :=
    fun n hn he => hmc (by rw [he]; exact hn)
  have hne25 : mc ≠ "wbgtout_above_25" := hne _ (by decide)
  have hne27 : mc ≠ "wbgtout_above_27" := hne _ (by decide)
  have hne28 : mc ≠ "wbgtout_above_28" := hne _ (by decide)
  have hne30 : mc ≠ "wbgtout_above_30" := hne _ (by decide)
  have c1 := setCol_cols_of_not_mem d "wbgtout_above_25"
    (fun r => aboveCell (r mc) 25) (h5 _ (by decide))
  have n27 : "wbgtout_above_27"
      ∉ (d.setCol "wbgtout_above_25" (fun r => aboveCell (r mc) 25)).cols := by
    rw [c1]
    simp [h5 "wbgtout_above_27" (by decide)]
  have c2 := setCol_cols_of_not_mem _ "wbgtout_above_27"
    (fun r => aboveCell (r mc) 27) n27
  have n28 : "wbgtout_above_28"
      ∉ ((d.setCol "wbgtout_above_25" (fun r => aboveCell (r mc) 25)).setCol
        "wbgtout_above_27" (fun r => aboveCell (r mc) 27)).cols := by
    rw [c2, c1]
    simp [h5 "wbgtout_above_28" (by decide)]
  have c3 := setCol_cols_of_not_mem _ "wbgtout_above_28"
    (fun r => aboveCell (r mc) 28) n28
  have n30 : "wbgtout_above_30"
      ∉ (((d.setCol "wbgtout_above_25" (fun r => aboveCell (r mc) 25)).setCol
        "wbgtout_above_27" (fun r => aboveCell (r mc) 27)).setCol
        "wbgtout_above_28" (fun r => aboveCell (r mc) 28)).cols := by
    rw [c3, c2, c1]
    simp [h5 "wbgtout_above_30" (by decide)]
  have c4 := setCol_cols_of_not_mem _ "wbgtout_above_30"
    (fun r => aboveCell (r mc) 30) n30
  have n32 : "wbgtout_above_32"
      ∉ ((((d.setCol "wbgtout_above_25" (fun r => aboveCell (r mc) 25)).setCol
        "wbgtout_above_27" (fun r => aboveCell (r mc) 27)).setCol
        "wbgtout_above_28" (fun r => aboveCell (r mc) 28)).setCol
        "wbgtout_above_30" (fun r => aboveCell (r mc) 30)).cols := by
    rw [c4, c3, c2, c1]
    simp [h5 "wbgtout_above_32" (by decide)]
  have c5 := setCol_cols_of_not_mem _ "wbgtout_above_32"
    (fun r => aboveCell (r mc) 32) n32
  refine ⟨?_, ?_, ?_⟩
  · rw [hdef, c5, c4, c3, c2, c1]
    simp [fiveNames, List.append_assoc]
  · rw [hdef]
    simp only [setCol_rows_length]
  · intro i hi
    constructor
    · intro t ht
      fin_cases ht
      · rw [show ("wbgtout_above_" ++ toString (25 : ℕ)) = "wbgtout_above_25"
            from rfl, hdef,
          setCol_row_apply _ _ _ _ _
            (by simp only [setCol_rows_length]; exact hi),
          if_neg (by decide),
          setCol_row_apply _ _ _ _ _
            (by simp only [setCol_rows_length]; exact hi),
          if_neg (by decide),
          setCol_row_apply _ _ _ _ _
            (by simp only [setCol_rows_length]; exact hi),
          if_neg (by decide),
          setCol_row_apply _ _ _ _ _
            (by simp only [setCol_rows_length]; exact hi),
          if_neg (by decide),
          setCol_row_apply _ _ _ _ _ hi, if_pos rfl]
      · rw [show ("wbgtout_above_" ++ toString (27 : ℕ)) = "wbgtout_above_27"
            from rfl, hdef,
          setCol_row_apply _ _ _ _ _
            (by simp only [setCol_rows_length]; exact hi),
          if_neg (by decide),
          setCol_row_apply _ _ _ _ _
            (by simp only [setCol_rows_length]; exact hi),
          if_neg (by decide),
          setCol_row_apply _ _ _ _ _
            (by simp only [setCol_rows_length]; exact hi),
          if_neg (by decide),
          setCol_row_apply _ _ _ _ _
            (by simp only [setCol_rows_length]; exact hi),
          if_pos rfl,
          setCol_row_apply _ _ _ _ _ hi, if_neg hne25]
      · rw [show ("wbgtout_above_" ++ toString (28 : ℕ)) = "wbgtout_above_28"
            from rfl, hdef,
          setCol_row_apply _ _ _ _ _
            (by simp only [setCol_rows_length]; exact hi),
          if_neg (by decide),
          setCol_row_apply _ _ _ _ _
            (by simp only [setCol_rows_length]; exact hi),
          if_neg (by decide),
          setCol_row_apply _ _ _ _ _
            (by simp only [setCol_rows_length]; exact hi),
          if_pos rfl,
          setCol_row_apply _ _ _ _ _
            (by simp only [setCol_rows_length]; exact hi),
          if_neg hne27,
          setCol_row_apply _ _ _ _ _ hi, if_neg hne25]
      · rw [show ("wbgtout_above_" ++ toString (30 : ℕ)) = "wbgtout_above_30"
            from rfl, hdef,
          setCol_row_apply _ _ _ _ _
            (by simp only [setCol_rows_length]; exact hi),
          if_neg (by decide),
          setCol_row_apply _ _ _ _ _
            (by simp only [setCol_rows_length]; exact hi),
          if_pos rfl,
          setCol_row_apply _ _ _ _ _
            (by simp only [setCol_rows_length]; exact hi),
          if_neg hne28,
          setCol_row_apply _ _ _ _ _
            (by simp only [setCol_rows_length]; exact hi),
          if_neg hne27,
          setCol_row_apply _ _ _ _ _ hi, if_neg hne25]
      · rw [show ("wbgtout_above_" ++ toString (32 : ℕ)) = "wbgtout_above_32"
            from rfl, hdef,
          setCol_row_apply _ _ _ _ _
            (by simp only [setCol_rows_length]; exact hi),
          if_pos rfl,
          setCol_row_apply _ _ _ _ _
            (by simp only [setCol_rows_length]; exact hi),
          if_neg hne30,
          setCol_row_apply _ _ _ _ _
            (by simp only [setCol_rows_length]; exact hi),
          if_neg hne28,
          setCol_row_apply _ _ _ _ _
            (by simp only [setCol_rows_length]; exact hi),
          if_neg hne27,
          setCol_row_apply _ _ _ _ _ hi, if_neg hne25]
    · intro c hcf
      have hcne : ∀ n ∈ fiveNames, c ≠ n :=
        fun n hn he => hcf (by rw [he]; exact hn)
      rw [hdef,
        setCol_row_apply _ _ _ _ _
          (by simp only [setCol_rows_length]; exact hi),
        if_neg (hcne _ (by decide)),
        setCol_row_apply _ _ _ _ _
          (by simp only [setCol_rows_length]; exact hi),
        if_neg (hcne _ (by decide)),
        setCol_row_apply _ _ _ _ _
          (by simp only [setCol_rows_length]; exact hi),
        if_neg (hcne _ (by decide)),
        setCol_row_apply _ _ _ _ _
          (by simp only [setCol_rows_length]; exact hi),
        if_neg (hcne _ (by decide)),
        setCol_row_apply _ _ _ _ _ hi, if_neg (hcne _ (by decide))]


/-- All column names the stage-2 core may add to the table. -/
def derivedNames : List String :=
  catRangeNames ++ fiveNames ++ ["num_thresholds_exceeded"]

/-- Whether a cell holds a float (finite or NaN) rather than a string. -/
def isFloat : PyVal → Bool
  | .num _ => true
  | .nan => true
  | .strv _ => false

theorem sum_indicator_eq_count (v : PyVal) (l : List ℕ) :
    (l.map (fun t => qCell (aboveCell v t))).sum
      = ((l.filter (fun t => pyGtNat v t)).length : ℚ) := by
  induction l with
  | nil => simp
  | cons t ts ih =>
    rw [List.map_cons, List.sum_cons, List.filter_cons]
    by_cases h : pyGtNat v t
    · rw [if_pos h]
      have hq : qCell (aboveCell v t) = 1 := by simp [aboveCell, qCell, h]
      rw [hq, ih, List.length_cons]
      push_cast
      ring
    · rw [if_neg h]
      have hq : qCell (aboveCell v t) = 0 := by simp [aboveCell, qCell, h]
      rw [hq, ih]
      ring

theorem stage2_core_spec (parseD : PyVal → PyVal) (df0 : DF) (mc : String)
    (hm : meanColFor "wbgtout" (prepped parseD df0).cols = some mc)
    (hder : ∀ n ∈ derivedNames, n ∉ (prepped parseD df0).cols)
    (hpre : ∀ c ∈ (prepped parseD df0).cols,
      strStarts "wbgtout_above_" c = false) :
    exceed_cols parseD df0 = fiveNames
    ∧ "num_thresholds_exceeded" ∉ (persistedDF parseD df0).cols
    ∧ "num_thresholds_exceeded" ∈ (finalDF parseD df0).cols
    ∧ (persistedDF parseD df0).rows.length
        = (prepped parseD df0).rows.length
    ∧ ∀ i, i < (prepped parseD df0).rows.length →
        (∀ t ∈ thresholds,
          ((persistedDF parseD df0).rows.getD i dfltRow)
            ("wbgtout_above_" ++ toString t)
            = aboveCell (((prepped parseD df0).rows.getD i dfltRow) mc) t)
        ∧ ((finalDF parseD df0).rows.getD i dfltRow) "num_thresholds_exceeded"
            = .num ((thresholds.map (fun t =>
                qCell (aboveCell
                  (((prepped parseD df0).rows.getD i dfltRow) mc) t))).sum) := by
  obtain ⟨⟨ex, hex, hmem⟩, hlen, hrow⟩ := catsRanges_extends (prepped parseD df0)
  have hfive_not : ∀ n ∈ fiveNames,
      n ∉ (catsRanges (prepped parseD df0)).cols := by
    intro n hn hmem2
    rw [hex] at hmem2
    rcases List.mem_append.mp hmem2 with h2 | h2
    · have ht : strStarts "wbgtout_above_" n = true := by
        fin_cases hn <;> decide
      simp [hpre n h2] at ht
    · have h3 := hmem n h2
      revert h3
      fin_cases hn <;> decide
  have hmc_mem : mc ∈ (prepped parseD df0).cols := meanColFor_mem hm
  have hmc_not5 : mc ∉ fiveNames := by
    intro hn
    have ht : strStarts "wbgtout_above_" mc = true := by
      fin_cases hn <;> decide
    simp [hpre mc hmc_mem] at ht
  have hmc_notCR : mc ∉ catRangeNames := by
    intro hn
    refine hder mc ?_ hmc_mem
    unfold derivedNames
    exact List.mem_append.mpr (Or.inl (List.mem_append.mpr (Or.inl hn)))
  obtain ⟨hcols, hlen2, hrows2⟩ :=
    addThresholdCols_spec (catsRanges (prepped parseD df0)) mc hfive_not hmc_not5
  have hpd : persistedDF parseD df0
      = addThresholdCols (catsRanges (prepped parseD df0)) mc := by
    unfold persistedDF
    rw [hm]
  have hexc : exceed_cols parseD df0 = fiveNames := by
    unfold exceed_cols
    rw [hpd, hcols, hex, List.filter_append, List.filter_append]
    have f1 : (prepped parseD df0).cols.filter
        (fun c => strStarts "wbgtout_above_" c) = [] :=
      List.filter_eq_nil_iff.mpr (fun a ha => by simp [hpre a ha])
    have f2 : ex.filter (fun c => strStarts "wbgtout_above_" c) = [] :=
      List.filter_eq_nil_iff.mpr (fun a ha => by
        have h3 := hmem a ha
        revert h3
        unfold catRangeNames
        intro h3
        fin_cases h3 <;> decide)
    have f3 : fiveNames.filter (fun c => strStarts "wbgtout_above_" c)
        = fiveNames := List.filter_eq_self.mpr (by decide)
    rw [f1, f2, f3]
    rfl
  have hnum_not : "num_thresholds_exceeded"
      ∉ (persistedDF parseD df0).cols := by
    rw [hpd, hcols, hex]
    intro hmem2
    rcases List.mem_append.mp hmem2 with h2 | h2
    · rcases List.mem_append.mp h2 with h3 | h3
      · exact hder "num_thresholds_exceeded" (by decide) h3
      · have h4 := hmem _ h3
        revert h4
        decide
    · revert h2
      decide
  have hfinal : finalDF parseD df0
      = (persistedDF parseD df0).setCol "num_thresholds_exceeded"
        (fun r => .num ((fiveNames.map (fun c => qCell (r c))).sum)) := by
    unfold finalDF
    rw [hexc, if_neg (by decide)]
  have hnum_in : "num_thresholds_exceeded" ∈ (finalDF parseD df0).cols := by
    rw [hfinal, setCol_cols_of_not_mem _ _ _ hnum_not]
    simp
  have hplen : (persistedDF parseD df0).rows.length
      = (prepped parseD df0).rows.length := by
    rw [hpd, hlen2, hlen]
  refine ⟨hexc, hnum_not, hnum_in, hplen, ?_⟩
  intro i hi
  have hi2 : i < (catsRanges (prepped parseD df0)).rows.length := by
    rw [hlen]
    exact hi
  obtain ⟨hvals, hpres⟩ := hrows2 i hi2
  have hbase : ((catsRanges (prepped parseD df0)).rows.getD i dfltRow) mc
      = ((prepped parseD df0).rows.getD i dfltRow) mc :=
    hrow i mc hi hmc_notCR
  constructor
  · intro t ht
    rw [hpd, hvals t ht, hbase]
  · have hv25 : ((addThresholdCols (catsRanges (prepped parseD df0))
        mc).rows.getD i dfltRow) "wbgtout_above_25"
        = aboveCell (((prepped parseD df0).rows.getD i dfltRow) mc) 25 := by
      have h := hvals 25 (by decide)
      rw [hbase] at h
      exact h
    have hv27 : ((addThresholdCols (catsRanges (prepped parseD df0))
        mc).rows.getD i dfltRow) "wbgtout_above_27"
        = aboveCell (((prepped parseD df0).rows.getD i dfltRow) mc) 27 := by
      have h := hvals 27 (by decide)
      rw [hbase] at h
      exact h
    have hv28 : ((addThresholdCols (catsRanges (prepped parseD df0))
        mc).rows.getD i dfltRow) "wbgtout_above_28"
        = aboveCell (((prepped parseD df0).rows.getD i dfltRow) mc) 28 := by
      have h := hvals 28 (by decide)
      rw [hbase] at h
      exact h
    have hv30 : ((addThresholdCols (catsRanges (prepped parseD df0))
        mc).rows.getD i dfltRow) "wbgtout_above_30"
        = aboveCell (((prepped parseD df0).rows.getD i dfltRow) mc) 30 := by
      have h := hvals 30 (by decide)
      rw [hbase] at h
      exact h
    have hv32 : ((addThresholdCols (catsRanges (prepped parseD df0))
        mc).rows.getD i dfltRow) "wbgtout_above_32"
        = aboveCell (((prepped parseD df0).rows.getD i dfltRow) mc) 32 := by
      have h := hvals 32 (by decide)
      rw [hbase] at h
      exact h
    rw [hfinal, setCol_row_apply _ _ _ _ _ (by rw [hplen]; exact hi),
      if_pos rfl, hpd]
    simp only [fiveNames, thresholds, List.map_cons, List.map_nil,
      List.sum_cons, List.sum_nil, hv25, hv27, hv28, hv30, hv32]


/-! ## Claims -/

/-- Claim C1 (counterexample).  On the spec's end-to-end example the
2020-01-01 threshold-exceedance count is 2, not 1 as claimed: the day's
mean 27.25 strictly exceeds both the 25 and the 27 thresholds. -/
theorem C1_counterexample :
    (exampleFinal.rows.getD 0 dfltRow) "num_thresholds_exceeded" = PyVal.num 2
    ∧ PyVal.num 2 ≠ PyVal.num 1 := by
  constructor
  · with_unfolding_all rfl
  · intro h
    exact absurd (PyVal.num.inj h) (by norm_num)

/-- Claim C1 (amended).  End-to-end example: stage 1 yields exactly the two
daily rows (2020-01-01: min 24, mean 27.25, max 30.5) and
(2020-01-02: min 34, mean 34, max 34); stage 2 assigns categories
"Caution" and "Extreme Danger", and threshold-exceedance counts 2
(the 25 and 27 thresholds) and 5 (all thresholds). -/
theorem C1_endToEnd :
    stage1 exampleParse ["datetime", "wbgtout"] exampleRows = .ok exampleExpected
    ∧ (examplePersisted.rows.getD 0 dfltRow) "wbgtout_category"
        = PyVal.strv "Caution"
    ∧ (examplePersisted.rows.getD 1 dfltRow) "wbgtout_category"
        = PyVal.strv "Extreme Danger"
    ∧ (examplePersisted.rows.getD 0 dfltRow) "wbgtout_above_25" = PyVal.num 1
    ∧ (examplePersisted.rows.getD 0 dfltRow) "wbgtout_above_27" = PyVal.num 1
    ∧ (examplePersisted.rows.getD 0 dfltRow) "wbgtout_above_28" = PyVal.num 0
    ∧ (exampleFinal.rows.getD 0 dfltRow) "num_thresholds_exceeded" = PyVal.num 2
    ∧ (exampleFinal.rows.getD 1 dfltRow) "num_thresholds_exceeded" = PyVal.num 5 := by
  refine ⟨?_, ?_, ?_, ?_, ?_, ?_, ?_, ?_⟩ <;> with_unfolding_all rfl

/-- Claim C3 (counterexample).  A missing value (NaN) is not categorized
"Unknown": `float(nan)` succeeds, NaN fails every `<` comparison, and the
value falls into the final `else` branch of each function. -/
theorem C3_counterexample :
    wbgt_category PyVal.nan = "Extreme Danger"
    ∧ thi_category PyVal.nan = "Emergency"
    ∧ wbgt_category PyVal.nan ≠ "Unknown"
    ∧ thi_category PyVal.nan ≠ "Unknown" := by
  refine ⟨rfl, rfl, ?_, ?_⟩ <;> decide

/-- Claim C3 (amended).  Exactly the values on which `float()` fails
(non-numeric strings) are categorized "Unknown" by both functions; a
missing value (NaN) converts successfully and is assigned the
highest-severity band instead ("Extreme Danger" / "Emergency"). -/
theorem C3_unknown :
    (∀ v : PyVal, pyFloat v = none →
      wbgt_category v = "Unknown" ∧ thi_category v = "Unknown")
    ∧ wbgt_category PyVal.nan = "Extreme Danger"
    ∧ thi_category PyVal.nan = "Emergency" := by
  refine ⟨?_, rfl, rfl⟩
  intro v h
  cases v <;> simp_all [wbgt_category, thi_category, pyFloat]

/-- Claim C3 witness: a non-numeric cell is categorized "Unknown". -/
theorem C3_unknown_witness :
    wbgt_category (PyVal.strv "n/a") = "Unknown"
    ∧ thi_category (PyVal.strv "n/a") = "Unknown" :=
  C3_unknown.1 (PyVal.strv "n/a") rfl

/-- Claim C4 (counterexample).  A summary-write failure after a successful
read is an uncaught exception: the exit status is 1 with no input-read
failure, and the run does not continue to the plotting work. -/
theorem C4_counterexample :
    (stage2Run true true false).1 = 1
    ∧ Ev.readFail ∉ (stage2Run true true false).2
    ∧ Ev.plotsDone ∉ (stage2Run true true false).2 := by
  decide

/-- Claim C4 (amended).  Only the categorized write is independently caught:
a categorized-write failure is reported and the summary write is still
attempted, and it never affects the exit status; but a summary-write
failure aborts the process with a nonzero status before the plotting work,
so exit 0 holds exactly when the read and the summary write succeed. -/
theorem C4_softFail :
    ∀ readOk catOk sumOk : Bool,
      ((stage2Run readOk catOk sumOk).1 = 0 ↔ readOk = true ∧ sumOk = true)
      ∧ (readOk = true → catOk = false →
          Ev.catWriteFail ∈ (stage2Run readOk catOk sumOk).2
          ∧ (Ev.sumWriteOk ∈ (stage2Run readOk catOk sumOk).2
             ∨ Ev.sumWriteFail ∈ (stage2Run readOk catOk sumOk).2))
      ∧ (stage2Run readOk catOk sumOk).1 = (stage2Run readOk true sumOk).1
      ∧ (readOk = true → sumOk = false →
          Ev.plotsDone ∉ (stage2Run readOk catOk sumOk).2) := by
  decide

/-- Claim C4 witness: with the categorized write failing and everything else
succeeding, the failure is reported and the summary write still happens. -/
theorem C4_softFail_witness :
    Ev.catWriteFail ∈ (stage2Run true false true).2
    ∧ (Ev.sumWriteOk ∈ (stage2Run true false true).2
       ∨ Ev.sumWriteFail ∈ (stage2Run true false true).2) :=
  (C4_softFail true false true).2.1 rfl rfl

/-- Claim C5.  Both categorization functions are total on numeric values and
given by the claimed bands, boundary values mapping to the
higher-severity band. -/
theorem C5_bands :
    ∀ v : ℚ,
      (v < 25 → wbgt_category (.num v) = "Safe")
      ∧ (25 ≤ v → v < 28 → wbgt_category (.num v) = "Caution")
      ∧ (28 ≤ v → v < 31 → wbgt_category (.num v) = "Extreme Caution")
      ∧ (31 ≤ v → v < 33 → wbgt_category (.num v) = "Danger")
      ∧ (33 ≤ v → wbgt_category (.num v) = "Extreme Danger")
      ∧ (v < 72 → thi_category (.num v) = "Comfort")
      ∧ (72 ≤ v → v < 79 → thi_category (.num v) = "Alert")
      ∧ (79 ≤ v → v < 89 → thi_category (.num v) = "Danger")
      ∧ (89 ≤ v → thi_category (.num v) = "Emergency") := by
  intro v
  simp only [wbgt_category, thi_category, pyFloat, fLt, decide_eq_true_eq]
  refine ⟨?_, ?_, ?_, ?_, ?_, ?_, ?_, ?_, ?_⟩ <;>
    (intros; split_ifs <;> first | rfl | (exfalso; linarith))

/-- Claim C5 witness: each boundary value lands in the higher-severity
band. -/
theorem C5_bands_witness :
    wbgt_category (.num 24) = "Safe"
    ∧ wbgt_category (.num 25) = "Caution"
    ∧ wbgt_category (.num 28) = "Extreme Caution"
    ∧ wbgt_category (.num 31) = "Danger"
    ∧ wbgt_category (.num 33) = "Extreme Danger"
    ∧ thi_category (.num 71) = "Comfort"
    ∧ thi_category (.num 72) = "Alert"
    ∧ thi_category (.num 79) = "Danger"
    ∧ thi_category (.num 89) = "Emergency" :=
  ⟨(C5_bands 24).1 (by norm_num),
   (C5_bands 25).2.1 (by norm_num) (by norm_num),
   (C5_bands 28).2.2.1 (by norm_num) (by norm_num),
   (C5_bands 31).2.2.2.1 (by norm_num) (by norm_num),
   (C5_bands 33).2.2.2.2.1 (by norm_num),
   (C5_bands 71).2.2.2.2.2.1 (by norm_num),
   (C5_bands 72).2.2.2.2.2.2.1 (by norm_num) (by norm_num),
   (C5_bands 79).2.2.2.2.2.2.2.1 (by norm_num) (by norm_num),
   (C5_bands 89).2.2.2.2.2.2.2.2 (by norm_num)⟩

/-- Claim C6.  When a timestamp column is discovered the run succeeds; the
reported warning count equals the number of rows whose timestamp fails to
parse; the kept rows and the dropped rows partition the input; a row whose
timestamp fails to parse belongs to no day's aggregation group; and every
output row is computed from its day's group only. -/
theorem C6_dropped :
    ∀ (parse : PyVal → Option DT) (rawCols : List String)
      (rows : List (List PyVal)) (dtc : String),
      findDtCol (rawCols.map normalize1) = some dtc →
      ∃ res : Stage1Result,
        stage1 parse rawCols rows = .ok res
        ∧ res.n_bad = rows.countP
            (fun r => (parse (getCell1 (rawCols.map normalize1) r dtc)).isNone)
        ∧ res.n_bad + (keptPairs parse (rawCols.map normalize1) dtc rows).length
            = rows.length
        ∧ (∀ r ∈ rows, parse (getCell1 (rawCols.map normalize1) r dtc) = none →
            ∀ d : ℤ, r ∉ dayGroup parse (rawCols.map normalize1) dtc rows d)
        ∧ ∀ dr ∈ res.daily, dr.stats = res.found.map (fun kc =>
            (kc.2, aggStats (colVals (rawCols.map normalize1) kc.2
              (dayGroup parse (rawCols.map normalize1) dtc rows dr.date)))) := by
  intro parse rawCols rows dtc hdt
  have hok : stage1 parse rawCols rows = .ok
      { n_bad := rows.countP
          (fun r => (parse (getCell1 (rawCols.map normalize1) r dtc)).isNone)
        found := discoverMetrics (rawCols.map normalize1)
        daily := (sortDedup ((keptPairs parse (rawCols.map normalize1) dtc
            rows).map (fun p => p.1.1))).map (fun d =>
          { date := d
            stats := (discoverMetrics (rawCols.map normalize1)).map (fun kc =>
              (kc.2, aggStats (colVals (rawCols.map normalize1) kc.2
                (dayGroup parse (rawCols.map normalize1) dtc rows d)))) }) } := by
    unfold stage1
    rw [hdt]
  refine ⟨_, hok, rfl, ?_, ?_, ?_⟩
  · unfold keptPairs
    rw [length_filterMap_eq_countP]
    simp only [Option.isSome_map']
    have hpart := List.length_eq_countP_add_countP
      (p := fun r => (parse (getCell1 (rawCols.map normalize1) r dtc)).isNone) rows
    rw [hpart]
    congr 1
    refine List.countP_congr (fun r hr => ?_)
    cases parse (getCell1 (rawCols.map normalize1) r dtc) <;> simp
  · intro r hr hnone d hmem
    unfold dayGroup at hmem
    rw [List.mem_map] at hmem
    obtain ⟨p, hp, hpr⟩ := hmem
    have hkept := (List.mem_filter.mp hp).1
    unfold keptPairs at hkept
    rw [List.mem_filterMap] at hkept
    obtain ⟨r2, hr2, hmap⟩ := hkept
    cases hparse : parse (getCell1 (rawCols.map normalize1) r2 dtc) with
    | none => rw [hparse] at hmap; simp at hmap
    | some dt =>
      rw [hparse] at hmap
      simp at hmap
      rw [← hmap] at hpr
      rw [← hpr] at hnone
      rw [hnone] at hparse
      cases hparse
  · intro dr hdr
    rw [List.mem_map] at hdr
    obtain ⟨d, hd, rfl⟩ := hdr
    rfl

/-- Claim C6 witness: on a concrete input with one unparseable timestamp, the
bad row is absent from the 2020-01-01 aggregation group. -/
theorem C6_dropped_witness :
    [PyVal.strv "not a date", PyVal.num 50] ∉
      dayGroup exampleParse (["datetime", "wbgtout"].map normalize1) "datetime"
        ([[PyVal.strv "not a date", PyVal.num 50]] ++ exampleRows) 20200101 := by
  obtain ⟨res, hok, h1, h2, h3, h4⟩ :=
    C6_dropped exampleParse ["datetime", "wbgtout"]
      ([[PyVal.strv "not a date", PyVal.num 50]] ++ exampleRows) "datetime"
      (by decide)
  exact h3 [PyVal.strv "not a date", PyVal.num 50] (by simp) (by decide) 20200101

/-- Claim C7.  Timestamp-column discovery is a two-pass, first-match-wins
search: the first column satisfying the first-pass rule wins; with no
first-pass match the first column containing `"date"` wins; with no match
at all stage 1 fails with the no-timestamp-column error carrying the full
normalized column list (and produces no output); and the first-pass rule
holds exactly of names containing `"datetime"`, containing both `"date"`
and `"time"`, or equal to `"timestamp"` or `"time"`. -/
theorem C7_dt_discovery :
    ∀ (parse : PyVal → Option DT) (rawCols : List String)
      (rows : List (List PyVal)),
      (∀ (l1 l2 : List String) (c : String),
        rawCols.map normalize1 = l1 ++ c :: l2 → isDtName c = true →
        (∀ x ∈ l1, isDtName x = false) →
        findDtCol (rawCols.map normalize1) = some c)
      ∧ (∀ (l1 l2 : List String) (c : String),
        (∀ x ∈ rawCols.map normalize1, isDtName x = false) →
        rawCols.map normalize1 = l1 ++ c :: l2 → strHas "date" c = true →
        (∀ x ∈ l1, strHas "date" x = false) →
        findDtCol (rawCols.map normalize1) = some c)
      ∧ ((∀ x ∈ rawCols.map normalize1,
            isDtName x = false ∧ strHas "date" x = false) →
        stage1 parse rawCols rows
          = .error (.noTimestampCol (rawCols.map normalize1)))
      ∧ (∀ c : String, isDtName c = true ↔
          ("datetime".data <:+: c.data
           ∨ ("date".data <:+: c.data ∧ "time".data <:+: c.data)
           ∨ c = "timestamp" ∨ c = "time")) := by
  intro parse rawCols rows
  refine ⟨?_, ?_, ?_, ?_⟩
  · intro l1 l2 c heq hc h1
    have hnone : l1.find? isDtName = none :=
      List.find?_eq_none.mpr (fun x hx => by simp [h1 x hx])
    unfold findDtCol
    rw [heq, List.find?_append, hnone, List.find?_cons_of_pos _ hc]
    rfl
  · intro l1 l2 c hall heq hc h1
    have hnone : (rawCols.map normalize1).find? isDtName = none :=
      List.find?_eq_none.mpr (fun x hx => by simp [hall x hx])
    have hnone1 : l1.find? (fun c => strHas "date" c) = none :=
      List.find?_eq_none.mpr (fun x hx => by simp [h1 x hx])
    have hfb : findDtCol (rawCols.map normalize1)
        = (rawCols.map normalize1).find? (fun c => strHas "date" c) := by
      unfold findDtCol
      rw [hnone]
    rw [hfb, heq, List.find?_append, hnone1, List.find?_cons_of_pos _ hc]
    rfl
  · intro hall
    have h1 : (rawCols.map normalize1).find? isDtName = none :=
      List.find?_eq_none.mpr (fun x hx => by simp [(hall x hx).1])
    have h2 : (rawCols.map normalize1).find?
        (fun c => strHas "date" c) = none :=
      List.find?_eq_none.mpr (fun x hx => by simp [(hall x hx).2])
    have hd : findDtCol (rawCols.map normalize1) = none := by
      unfold findDtCol
      rw [h1, h2]
    simp only [stage1, hd]
  · intro c
    simp only [isDtName, Bool.or_eq_true, Bool.and_eq_true, strHas_iff,
      decide_eq_true_eq]
    tauto

/-- Claim C7 witness: on columns `["Obs Date Time", "WBGT Out"]` the first
column wins the first pass (it contains both "date" and "time" after
normalization). -/
theorem C7_dt_discovery_witness :
    findDtCol (["Obs Date Time", "WBGT Out"].map normalize1)
      = some "obs_date_time" :=
  (C7_dt_discovery (fun _ => none) ["Obs Date Time", "WBGT Out"] []).1
    [] ["wbgt_out"] "obs_date_time" (by decide) (by decide) (by decide)

/-- Claim C8.  In every successful stage-1 run, every daily row's statistics
triple for every metric satisfies min ≤ mean ≤ max whenever the three
values are present (which is exactly when the metric has at least one
non-missing observation that day). -/
theorem C8_minMeanMax :
    ∀ (parse : PyVal → Option DT) (rawCols : List String)
      (rows : List (List PyVal)) (res : Stage1Result),
      stage1 parse rawCols rows = .ok res →
      ∀ dr ∈ res.daily, ∀ cs ∈ dr.stats, ∀ a m b : ℚ,
        cs.2.min = some a → cs.2.mean = some m → cs.2.max = some b →
        a ≤ m ∧ m ≤ b := by
  intro parse rawCols rows res hok dr hdr cs hcs a m b ha hm hb
  unfold stage1 at hok
  cases hdt : findDtCol (rawCols.map normalize1) with
  | none => rw [hdt] at hok; cases hok
  | some dtc =>
    rw [hdt] at hok
    simp only [Except.ok.injEq] at hok
    subst hok
    rw [List.mem_map] at hdr
    obtain ⟨d, hd, rfl⟩ := hdr
    simp only [List.mem_map] at hcs
    obtain ⟨kc, hkc, rfl⟩ := hcs
    have hagg : aggStats (colVals (rawCols.map normalize1) kc.2
        (dayGroup parse (rawCols.map normalize1) dtc rows d))
        = ⟨some a, some m, some b⟩ := by
      rw [← ha, ← hm, ← hb]
    exact aggStats_min_le_mean_le_max hagg

/-- Claim C8 witness: on the end-to-end example's first day,
24 ≤ 27.25 ≤ 30.5. -/
theorem C8_minMeanMax_witness : (24 : ℚ) ≤ 109 / 4 ∧ (109 : ℚ) / 4 ≤ 61 / 2 :=
  C8_minMeanMax exampleParse ["datetime", "wbgtout"] exampleRows
    exampleExpected (by with_unfolding_all rfl)
    { date := 20200101
      stats := [("wbgtout", ⟨some 24, some (109 / 4), some (61 / 2)⟩)] }
    (List.mem_cons_self _ _)
    ("wbgtout", ⟨some 24, some (109 / 4), some (61 / 2)⟩)
    (List.mem_cons_self _ _)
    24 (109 / 4) (61 / 2) rfl rfl rfl

/-- Claim C10.  Metric discovery can never pick the whitespace-containing
aliases: whatever the raw columns, a discovered outdoor-WBGT column is one
of the four space-free aliases, and likewise indoors (normalization
replaces every space with an underscore before matching). -/
theorem C10_spaceAliasUnreachable :
    ∀ (rawCols : List String) (n : String),
      (("wbgtout", n) ∈ discoverMetrics (rawCols.map normalize1) →
        n ∈ ["wbgtout", "wbgt_out", "wbgt-out", "wbgt_outdoor"])
      ∧ (("wbgtin", n) ∈ discoverMetrics (rawCols.map normalize1) →
        n ∈ ["wbgtin", "wbgt_in", "wbgt-in", "wbgt_indoor"]) := by
  intro rawCols n
  constructor
  · intro h
    rcases discover_cases h with ⟨hk, hf⟩ | ⟨hk, hf⟩ | ⟨hk, hf⟩ | ⟨hk, hc⟩ | ⟨hk, hc⟩
    · obtain ⟨hmem, hcols⟩ := findAlias_mem hf
      simp only [wbgtoutAliases, List.mem_cons, List.not_mem_nil, or_false] at hmem
      rcases hmem with rfl | rfl | rfl | rfl | rfl
      · decide
      · decide
      · decide
      · exact absurd (by decide : ' ' ∈ ("wbgt outdoor").data)
          (no_space_of_mem_normalized hcols)
      · decide
    · exact absurd hk (by decide)
    · exact absurd hk (by decide)
    · exact absurd hk (by decide)
    · exact absurd hk (by decide)
  · intro h
    rcases discover_cases h with ⟨hk, hf⟩ | ⟨hk, hf⟩ | ⟨hk, hf⟩ | ⟨hk, hc⟩ | ⟨hk, hc⟩
    · exact absurd hk (by decide)
    · obtain ⟨hmem, hcols⟩ := findAlias_mem hf
      simp only [wbgtinAliases, List.mem_cons, List.not_mem_nil, or_false] at hmem
      rcases hmem with rfl | rfl | rfl | rfl | rfl
      · decide
      · decide
      · decide
      · exact absurd (by decide : ' ' ∈ ("wbgt indoor").data)
          (no_space_of_mem_normalized hcols)
      · decide
    · exact absurd hk (by decide)
    · exact absurd hk (by decide)
    · exact absurd hk (by decide)

/-- Claim C10 witness: a raw column "WBGT Out" is discovered through its
normalized space-free form. -/
theorem C10_spaceAliasUnreachable_witness :
    "wbgt_out" ∈ ["wbgtout", "wbgt_out", "wbgt-out", "wbgt_outdoor"] :=
  (C10_spaceAliasUnreachable ["WBGT Out"] "wbgt_out").1 (by decide)

/-- A one-row daily table with a numeric outdoor-WBGT mean of 26, used to
instantiate the stage-2 claims. -/
def c2exDF : DF :=
  { cols := ["date", "wbgtout_mean"]
    rows := [fun c => if c = "wbgtout_mean" then PyVal.num 26
                      else PyVal.strv "2020-01-01"] }

/-- A one-row daily table whose outdoor-WBGT mean is missing (NaN). -/
def c9exDF : DF :=
  { cols := ["date", "wbgtout_mean"]
    rows := [fun c => if c = "wbgtout_mean" then PyVal.nan
                      else PyVal.strv "2020-01-01"] }

/-- Claim C2 (counterexample).  On a table whose outdoor-WBGT mean column is
discovered, the persisted categorized table does *not* contain
`num_thresholds_exceeded` — the column is created only after the
categorized file is written (it does exist in the final in-memory
table). -/
theorem C2_counterexample :
    meanColFor "wbgtout" (prepped id c2exDF).cols = some "wbgtout_mean"
    ∧ "num_thresholds_exceeded" ∉ (characterize id c2exDF).1.cols
    ∧ "num_thresholds_exceeded" ∈ (characterize id c2exDF).2.cols := by
  refine ⟨?_, ?_, ?_⟩ <;> with_unfolding_all decide

/-- Claim C2 (amended).  When the outdoor-WBGT mean column is discovered (and
no input column collides with a derived column name), the
`num_thresholds_exceeded` column exists only in the in-memory table built
after the categorized write — not in the persisted table — and there its
value per row is the row-wise sum of the five `wbgtout_above_*` indicators,
which equals the count of thresholds in {25, 27, 28, 30, 32} strictly
exceeded by that row's outdoor-WBGT mean. -/
theorem C2_numThresholds :
    ∀ (parseD : PyVal → PyVal) (df0 : DF) (mc : String) (i : ℕ),
      meanColFor "wbgtout" (prepped parseD df0).cols = some mc →
      (∀ n ∈ derivedNames, n ∉ (prepped parseD df0).cols) →
      (∀ c ∈ (prepped parseD df0).cols,
        strStarts "wbgtout_above_" c = false) →
      i < (prepped parseD df0).rows.length →
      isFloat (((prepped parseD df0).rows.getD i dfltRow) mc) = true →
      "num_thresholds_exceeded" ∉ (characterize parseD df0).1.cols
      ∧ "num_thresholds_exceeded" ∈ (characterize parseD df0).2.cols
      ∧ ((characterize parseD df0).2.rows.getD i dfltRow)
          "num_thresholds_exceeded"
        = .num ((fiveNames.map (fun c =>
            qCell (((characterize parseD df0).1.rows.getD i dfltRow) c))).sum)
      ∧ ((characterize parseD df0).2.rows.getD i dfltRow)
          "num_thresholds_exceeded"
        = .num (((thresholds.filter (fun t =>
            pyGtNat (((prepped parseD df0).rows.getD i dfltRow) mc) t)).length
              : ℕ) : ℚ) := by
  intro parseD df0 mc i hm hder hpre hi hflt
  obtain ⟨hexc, hnot, hin, hplen, hrows⟩ := stage2_core_spec parseD df0 mc hm hder hpre
  obtain ⟨hvals, hnum⟩ := hrows i hi
  refine ⟨hnot, hin, ?_, ?_⟩
  · show (finalDF parseD df0).rows.getD i dfltRow "num_thresholds_exceeded"
      = .num ((fiveNames.map (fun c =>
          qCell ((persistedDF parseD df0).rows.getD i dfltRow c))).sum)
    rw [hnum]
    congr 1
    have h25 := hvals 25 (by decide)
    have h27 := hvals 27 (by decide)
    have h28 := hvals 28 (by decide)
    have h30 := hvals 30 (by decide)
    have h32 := hvals 32 (by decide)
    rw [show ("wbgtout_above_" ++ toString (25 : ℕ)) = "wbgtout_above_25"
      from rfl] at h25
    rw [show ("wbgtout_above_" ++ toString (27 : ℕ)) = "wbgtout_above_27"
      from rfl] at h27
    rw [show ("wbgtout_above_" ++ toString (28 : ℕ)) = "wbgtout_above_28"
      from rfl] at h28
    rw [show ("wbgtout_above_" ++ toString (30 : ℕ)) = "wbgtout_above_30"
      from rfl] at h30
    rw [show ("wbgtout_above_" ++ toString (32 : ℕ)) = "wbgtout_above_32"
      from rfl] at h32
    simp only [fiveNames, thresholds, List.map_cons, List.map_nil,
      List.sum_cons, List.sum_nil, h25, h27, h28, h30, h32]
  · show (finalDF parseD df0).rows.getD i dfltRow "num_thresholds_exceeded"
      = _
    rw [hnum, sum_indicator_eq_count]

/-- Claim C2 witness: with a mean of 26 the final table's
`num_thresholds_exceeded` is 1 (only the 25 threshold is exceeded). -/
theorem C2_numThresholds_witness :
    ((characterize id c2exDF).2.rows.getD 0 dfltRow)
      "num_thresholds_exceeded" = PyVal.num 1 := by
  have h := (C2_numThresholds id c2exDF "wbgtout_mean" 0
    (by with_unfolding_all decide) (by decide) (by decide) (by decide)
    (by with_unfolding_all decide)).2.2.2
  rw [h]
  with_unfolding_all decide

/-- Claim C9.  When the outdoor-WBGT mean column is discovered, a row whose
mean is missing (NaN) receives 0 in every `wbgtout_above_*` indicator
column of the persisted table — NaN compares as not exceeding any
threshold — and its final `num_thresholds_exceeded` is 0 rather than
missing. -/
theorem C9_nanZero :
    ∀ (parseD : PyVal → PyVal) (df0 : DF) (mc : String) (i : ℕ),
      meanColFor "wbgtout" (prepped parseD df0).cols = some mc →
      (∀ n ∈ derivedNames, n ∉ (prepped parseD df0).cols) →
      (∀ c ∈ (prepped parseD df0).cols,
        strStarts "wbgtout_above_" c = false) →
      i < (prepped parseD df0).rows.length →
      ((prepped parseD df0).rows.getD i dfltRow) mc = PyVal.nan →
      (∀ t ∈ thresholds,
        ((characterize parseD df0).1.rows.getD i dfltRow)
          ("wbgtout_above_" ++ toString t) = PyVal.num 0)
      ∧ ((characterize parseD df0).2.rows.getD i dfltRow)
          "num_thresholds_exceeded" = PyVal.num 0 := by
  intro parseD df0 mc i hm hder hpre hi hnan
  obtain ⟨hexc, hnot, hin, hplen, hrows⟩ := stage2_core_spec parseD df0 mc hm hder hpre
  obtain ⟨hvals, hnum⟩ := hrows i hi
  constructor
  · intro t ht
    show (persistedDF parseD df0).rows.getD i dfltRow
      ("wbgtout_above_" ++ toString t) = PyVal.num 0
    rw [hvals t ht, hnan]
    rfl
  · show (finalDF parseD df0).rows.getD i dfltRow
      "num_thresholds_exceeded" = PyVal.num 0
    rw [hnum, hnan]
    norm_num [thresholds, aboveCell, pyGtNat, qCell]

/-- Claim C9 witness: on the one-row NaN-mean table the `wbgtout_above_25`
indicator is 0 and the final exceedance count is 0. -/
theorem C9_nanZero_witness :
    ((characterize id c9exDF).1.rows.getD 0 dfltRow)
      ("wbgtout_above_" ++ toString (25 : ℕ)) = PyVal.num 0
    ∧ ((characterize id c9exDF).2.rows.getD 0 dfltRow)
      "num_thresholds_exceeded" = PyVal.num 0 := by
  have h := C9_nanZero id c9exDF "wbgtout_mean" 0
    (by with_unfolding_all decide) (by decide) (by decide) (by decide)
    (by decide)
  exact ⟨h.1 25 (by decide), h.2⟩

end HeatStress